import Mathlib

/-!
Shallow embedding of the question-bank generator backend (`app.py`):
the response parser and workbook exporter (`generate_excel`), the PDF
text extractor (`extract_text_from_pdf`), and the background worker
(`process_files`), together with theorems settling the specification
claims about them.
-/

/-! ## Python string primitives used by the code -/

/-- Python `str.strip()` whitespace characters (ASCII fragment). -/
def isPyWs (c : Char) : Bool :=
  c = ' ' || c = '\t' || c = '\n' || c = '\r' || c = '\x0b' || c = '\x0c'

/-- Python `line.strip()`: drop leading and trailing whitespace. -/
def pyStrip (s : String) : String :=
  String.mk (((s.data.dropWhile isPyWs).reverse.dropWhile isPyWs).reverse)

/-- `pat` occurs as a contiguous sublist of `l` (Python `pat in s` on chars). -/
def listHasInfix (pat : List Char) : List Char → Bool
  | [] => pat.isEmpty
  | l@(_ :: rest) => pat.isPrefixOf l || listHasInfix pat rest

/-- Python `pat in s` substring test. -/
def containsSubstr (pat s : String) : Bool :=
  listHasInfix pat.data s.data

/-- ASCII uppercasing of one character (the fragment of Python `str.upper()`
the code relies on). -/
def upChar (c : Char) : Char :=
  if 'a' ≤ c ∧ c ≤ 'z' then Char.ofNat (c.toNat - 32) else c

/-- ASCII lowercasing of one character (the fragment of Python `str.lower()`
the code relies on). -/
def lowChar (c : Char) : Char :=
  if 'A' ≤ c ∧ c ≤ 'Z' then Char.ofNat (c.toNat + 32) else c

/-- Python `s.upper()` (ASCII fragment). -/
def strUpper (s : String) : String := String.mk (s.data.map upChar)

/-- Python `s.lower()` (ASCII fragment). -/
def strLower (s : String) : String := String.mk (s.data.map lowChar)

/-- Python `s.startswith(pat)`. -/
def strStartsWith (s pat : String) : Bool := pat.data.isPrefixOf s.data

/-- Python `s.split('\n')` helper: accumulates the current field reversed. -/
def splitNlAux : List Char → List Char → List String
  | [], acc => [String.mk acc.reverse]
  | c :: cs, acc =>
    if c = '\n' then String.mk acc.reverse :: splitNlAux cs []
    else splitNlAux cs (c :: acc)

/-- Python `s.split('\n')`. -/
def splitLines (s : String) : List String := splitNlAux s.data []

/-- Python `'\n'.join(l)`. -/
def joinNl : List String → String
  | [] => ""
  | [s] => s
  | s :: rest => s ++ "\n" ++ joinNl rest

/-! ## Response parser (the parsing loop of `generate_excel`, app.py lines 113-173) -/

/-- The three sections of `sections = {"MCQ": [], "Short Answer": [], "Long Answer": []}`. -/
inductive Sec where
  | mcq
  | short
  | long
deriving DecidableEq, Repr

/-- A `current_question` dict. `Question` is always present when the dict is
non-empty; `Options`/`Answer` keys exist only for records created in the MCQ
branch, hence the `Option` wrappers (a missing key is `none`). -/
structure QRec where
  question : String
  options : Option (List String)
  answer : Option String
deriving DecidableEq, Repr

/-- The three collections built by the parser. -/
structure Sections where
  mcq : List QRec
  short : List QRec
  long : List QRec
deriving DecidableEq, Repr

def Sections.empty : Sections := ⟨[], [], []⟩

/-- `sections[current_section].append(current_question.copy())`. -/
def addTo (s : Sections) : Sec → QRec → Sections
  | .mcq, r => { s with mcq := s.mcq ++ [r] }
  | .short, r => { s with short := s.short ++ [r] }
  | .long, r => { s with long := s.long ++ [r] }

/-- Section-header test on the stripped line (app.py lines 134-146):
case-insensitive, first matching branch wins. -/
def headerOf (line : String) : Option Sec :=
  let u := strUpper line
  if containsSubstr "MULTIPLE CHOICE" u || strStartsWith u "MCQ" then some .mcq
  else if containsSubstr "SHORT ANSWER" u then some .short
  else if containsSubstr "LONG ANSWER" u then some .long
  else none

/-- `line.startswith(('Q', '1.', '2.', '3.', '4.', '5.'))`. -/
def isQStart (line : String) : Bool :=
  strStartsWith line "Q" || strStartsWith line "1." || strStartsWith line "2." ||
  strStartsWith line "3." || strStartsWith line "4." || strStartsWith line "5."

/-- `line.startswith(('A)', 'B)', 'C)', 'D)', 'A.', 'B.', 'C.', 'D.'))`. -/
def isOptStart (line : String) : Bool :=
  strStartsWith line "A)" || strStartsWith line "B)" || strStartsWith line "C)" ||
  strStartsWith line "D)" || strStartsWith line "A." || strStartsWith line "B." ||
  strStartsWith line "C." || strStartsWith line "D."

/-- `"ANSWER:" in line_upper or "CORRECT:" in line_upper`. -/
def isAnswerLine (lineUpper : String) : Bool :=
  containsSubstr "ANSWER:" lineUpper || containsSubstr "CORRECT:" lineUpper

/-- Loop state: `current_section` and `current_question` (`none` = the empty
dict `{}`; a non-empty `current_question` always has its `Question` key). -/
structure PState where
  sec : Option Sec
  cur : Option QRec
  secs : Sections
deriving DecidableEq, Repr

def PState.init : PState := ⟨none, none, Sections.empty⟩

/-- One iteration of `for line in lines` (app.py lines 128-169).  The
`Except` error models the `KeyError` raised by
`current_question["Options"].append(line)` when the in-progress record was
created in a Short/Long section and so has no `Options` key. -/
def parseLine (st : PState) (rawLine : String) : Except String PState :=
  let line := pyStrip rawLine
  if line = "" then .ok st
  else
    let lineUpper := strUpper line
    match headerOf line with
    | some s => .ok { st with sec := some s }
    | none =>
      match st.sec with
      | none => .ok st
      | some .mcq =>
        if isQStart line then
          let secs := match st.cur with
            | some r => addTo st.secs .mcq r
            | none => st.secs
          .ok ⟨some .mcq, some ⟨line, some [], some ""⟩, secs⟩
        else if isOptStart line then
          match st.cur with
          | some r =>
            match r.options with
            | some os => .ok { st with cur := some { r with options := some (os ++ [line]) } }
            | none => .error "KeyError: Options"
          | none => .ok st
        else if isAnswerLine lineUpper then
          match st.cur with
          | some r => .ok { st with cur := some { r with answer := some line } }
          | none => .ok st
        else .ok st
      | some .short =>
        if isQStart line then
          let secs := match st.cur with
            | some r => addTo st.secs .short r
            | none => st.secs
          .ok ⟨some .short, some ⟨line, none, none⟩, secs⟩
        else .ok st
      | some .long =>
        if isQStart line then
          let secs := match st.cur with
            | some r => addTo st.secs .long r
            | none => st.secs
          .ok ⟨some .long, some ⟨line, none, none⟩, secs⟩
        else .ok st

/-- The whole `for line in lines` loop. -/
def parseLoop : List String → PState → Except String PState
  | [], st => .ok st
  | l :: ls, st =>
    match parseLine st l with
    | .error e => .error e
    | .ok st' => parseLoop ls st'

/-- End-of-loop flush (app.py lines 171-173): add the in-progress record to
the currently active section. -/
def finalFlush (st : PState) : Sections :=
  match st.cur, st.sec with
  | some r, some s => addTo st.secs s r
  | _, _ => st.secs

/-- Parse a list of raw lines into the three collections. -/
def parseLinesToSections (lines : List String) : Except String Sections :=
  (parseLoop lines PState.init).map finalFlush

/-- The parsing half of `generate_excel`: `lines = questions_text.split('\n')`
followed by the loop and the final flush. -/
def parseSections (questions_text : String) : Except String Sections :=
  parseLinesToSections (splitLines questions_text)

/-! ## Workbook exporter (app.py lines 183-205) -/

structure Sheet where
  name : String
  header : List String
  rows : List (List String)
deriving DecidableEq, Repr

structure Workbook where
  mcqSheet : Sheet
  shortSheet : Sheet
  longSheet : Sheet
deriving DecidableEq, Repr

/-- One MCQ row: `q.get("Question", "")`, newline-joined `q.get("Options", [])`,
`q.get("Answer", "")`. -/
def mcqRow (r : QRec) : List String :=
  [r.question, joinNl (r.options.getD []), r.answer.getD ""]

/-- One Short/Long Answer row: `q.get("Question", "")`. -/
def qRow (r : QRec) : List String := [r.question]

/-- The three sheets written by `pd.ExcelWriter`; an empty collection becomes
a sheet with the fixed column header and zero rows. -/
def makeWorkbook (s : Sections) : Workbook :=
  ⟨⟨"MCQs", ["Question", "Options", "Answer"], s.mcq.map mcqRow⟩,
   ⟨"Short Answer", ["Question"], s.short.map qRow⟩,
   ⟨"Long Answer", ["Question"], s.long.map qRow⟩⟩

/-- `generate_excel`: parse, then write; returns the Python `True`/`False`
(`writeOk` models whether the `pd.ExcelWriter` block succeeds); a `KeyError`
raised while parsing propagates to the caller. -/
def generate_excel (questions_text : String) (writeOk : Bool) : Except String Bool :=
  (parseSections questions_text).map (fun _ => writeOk)

/-! ## Text extractor (`extract_text_from_pdf`, app.py lines 71-111) -/

/-- A page is either extractable text or a per-page extraction failure
(`page.get_text()` raising). -/
abbrev Page := Except Unit String

/-- A document is a page list, or a whole-document failure (`fitz.open` or
the page loop raising outside the per-page try). -/
abbrev PDFDoc := Except Unit (List Page)

/-- The `for page_num in range(...)` loop: skip failing pages, append page
text, break once the accumulated text exceeds 500000 characters (the check
runs after the append, inside the per-page try). -/
def extractLoop : List Page → String → String
  | [], text => text
  | p :: rest, text =>
    match p with
    | .error _ => extractLoop rest text
    | .ok page_text =>
      let text' := text ++ page_text
      if text'.length > 500000 then text' else extractLoop rest text'

/-- `extract_text_from_pdf(file_path, max_pages)`.  A `max_pages` of `some 0`
is falsy in Python (`if max_pages and total_pages > max_pages`), so it does
not limit.  The page loop runs over `range(min(total_pages, 500))`. -/
def extract_text_from_pdf (doc : PDFDoc) (max_pages : Option Nat) : String :=
  match doc with
  | .error _ => ""
  | .ok pages =>
    let total_pages := pages.length
    let total_pages :=
      match max_pages with
      | some mp => if mp ≠ 0 ∧ total_pages > mp then mp else total_pages
      | none => total_pages
    extractLoop (pages.take (min total_pages 500)) ""

/-- Length of the text a page contributes (a failing page contributes 0). -/
def pageLen : Page → Nat
  | .error _ => 0
  | .ok s => s.length

/-- Longest single page contribution in a page list. -/
def maxPageLen (pages : List Page) : Nat :=
  pages.foldr (fun p m => max (pageLen p) m) 0

/-- Longest single page contribution in a document (0 for a failing doc). -/
def docMaxPageLen : PDFDoc → Nat
  | .error _ => 0
  | .ok pages => maxPageLen pages

/-! ## Worker (`process_files`, app.py lines 213-289) -/

/-- The dict returned by `OpenAIService.generate_questions`. -/
structure ApiResponse where
  success : Bool
  content : String
  error : String
deriving DecidableEq, Repr

/-- The environment a worker run observes: whether the global
`openai_service` is non-`None`, the two uploaded documents, the API reply,
and whether the Excel write succeeds. -/
structure WorkerEnv where
  serviceAvailable : Bool
  refDoc : PDFDoc
  sylDoc : PDFDoc
  api : ApiResponse
  excelWriteOk : Bool
deriving Repr

/-- One snapshot of the job record `jobs[job_id]` after a transition (the
status write together with the error/result fields written with it). -/
structure JobRec where
  status : String
  error : Option String
  hasResult : Bool
deriving DecidableEq, Repr

/-- Observable outcome of one `process_files` run: the successive job-record
snapshots (the record starts as `queued` before the worker runs), and
whether extraction / the generation call were reached. -/
structure WorkerRun where
  trace : List JobRec
  extractCalled : Bool
  apiCalled : Bool
deriving DecidableEq, Repr

def quotaMsg : String :=
  "API quota exceeded. Please add credits to your OpenAI account and try again."

def serviceUnavailableMsg : String :=
  "OpenAI service is not available. Please check your API key configuration."

def refExtractFailMsg : String :=
  "No text could be extracted from the reference PDF."

def sylExtractFailMsg : String :=
  "No text could be extracted from the syllabus PDF."

/-- `process_files`: the backend worker, as a function of its environment.
The `trace` lists the job-record states in the order the code writes them. -/
def process_files (env : WorkerEnv) : WorkerRun :=
  let j0 : JobRec := ⟨"processing", none, false⟩
  if !env.serviceAvailable then
    ⟨[j0, ⟨"error", some serviceUnavailableMsg, false⟩], false, false⟩
  else
    let reference_text := extract_text_from_pdf env.refDoc (some 1000)
    let syllabus_text := extract_text_from_pdf env.sylDoc (some 50)
    if pyStrip reference_text = "" then
      ⟨[j0, ⟨"error", some refExtractFailMsg, false⟩], true, false⟩
    else if pyStrip syllabus_text = "" then
      ⟨[j0, ⟨"error", some sylExtractFailMsg, false⟩], true, false⟩
    else
      let j1 : JobRec := ⟨"generating_questions", none, false⟩
      if !env.api.success then
        let msg :=
          if containsSubstr "429" env.api.error || containsSubstr "quota" (strLower env.api.error)
          then quotaMsg
          else "Failed to generate questions: " ++ env.api.error
        ⟨[j0, j1, ⟨"error", some msg, false⟩], true, true⟩
      else
        match generate_excel env.api.content env.excelWriteOk with
        | .error e => ⟨[j0, j1, ⟨"error", some e, false⟩], true, true⟩
        | .ok true => ⟨[j0, j1, ⟨"completed", none, true⟩], true, true⟩
        | .ok false => ⟨[j0, j1, ⟨"error", some "Failed to create Excel file", false⟩], true, true⟩

/-- Position of a status in the forward order
`queued → processing → generating_questions → {completed, error}`. -/
def statusRank : String → Nat
  | "queued" => 0
  | "processing" => 1
  | "generating_questions" => 2
  | "completed" => 3
  | "error" => 3
  | _ => 0

/-- The witness page for the extractor threshold: 500001 characters. -/
def bigPage : String := String.mk (List.replicate 500001 'a')

/-! ## Theorems -/

theorem string_length_mk (l : List Char) : (String.mk l).length = l.length := rfl

theorem maxPageLen_cons (p : Page) (ps : List Page) :
    maxPageLen (p :: ps) = max (pageLen p) (maxPageLen ps) := rfl

theorem extractLoop_singleton (s : String) : extractLoop [.ok s] "" = "" ++ s := by
  simp [extractLoop]

theorem bigPage_length : bigPage.length = 500001 := by
  show (List.replicate 500001 'a').length = 500001
  rw [List.length_replicate]

/-- Once the accumulated text is over the threshold, later pages are never
scanned: extending the page list does not change the result. -/
theorem extractLoop_stop (p1 : List Page) (p2 : List Page) :
    ∀ t : String, t.length ≤ 500000 → 500000 < (extractLoop p1 t).length →
      extractLoop (p1 ++ p2) t = extractLoop p1 t := by
  induction p1 with
  | nil =>
    intro t hle hgt
    simp [extractLoop] at hgt
    omega
  | cons p rest ih =>
    intro t hle hgt
    cases p with
    | error u =>
      simp only [List.cons_append, extractLoop] at *
      exact ih t hle hgt
    | ok s =>
      by_cases hc : (t ++ s).length > 500000
      · simp only [List.cons_append, extractLoop, if_pos hc]
      · have hc' : (t ++ s).length ≤ 500000 := Nat.not_lt.mp hc
        have hgt' : 500000 < (extractLoop rest (t ++ s)).length := by
          simpa only [extractLoop, if_neg hc] using hgt
        simp only [List.cons_append, extractLoop, if_neg hc]
        exact ih (t ++ s) hc' hgt'

/-- The loop's output length is bounded by the threshold plus one page. -/
theorem extractLoop_length_le (ps : List Page) :
    ∀ t : String, t.length ≤ 500000 →
      (extractLoop ps t).length ≤ 500000 + maxPageLen ps := by
  induction ps with
  | nil => intro t hle; simpa [extractLoop, maxPageLen] using hle.trans (by omega)
  | cons p rest ih =>
    intro t hle
    cases p with
    | error u =>
      simp only [extractLoop, maxPageLen_cons, pageLen]
      exact (ih t hle).trans (by omega)
    | ok s =>
      by_cases hc : (t ++ s).length > 500000
      · simp only [extractLoop, if_pos hc, maxPageLen_cons, pageLen]
        rw [String.length_append]
        have h1 := Nat.le_max_left s.length (maxPageLen rest)
        have h2 := String.length_append t s
        omega
      · have hc' : (t ++ s).length ≤ 500000 := Nat.not_lt.mp hc
        simp only [extractLoop, if_neg hc, maxPageLen_cons, pageLen]
        have h1 := ih (t ++ s) hc'
        have h2 := Nat.le_max_right s.length (maxPageLen rest)
        omega

theorem maxPageLen_take_le (ps : List Page) : ∀ n, maxPageLen (ps.take n) ≤ maxPageLen ps := by
  induction ps with
  | nil => intro n; simp
  | cons p rest ih =>
    intro n
    cases n with
    | zero => simp [maxPageLen]
    | succ m =>
      simp only [List.take_succ_cons, maxPageLen_cons]
      exact max_le_max (Nat.le_refl _) (ih m)

theorem extract_length_le (doc : PDFDoc) (mp : Option Nat) :
    (extract_text_from_pdf doc mp).length ≤ 500000 + docMaxPageLen doc := by
  cases doc with
  | error u => simp [extract_text_from_pdf, docMaxPageLen]
  | ok pages =>
    simp only [extract_text_from_pdf, docMaxPageLen]
    have h0 : ("" : String).length ≤ 500000 := by simp
    cases mp with
    | none =>
      exact (extractLoop_length_le _ "" h0).trans
        (Nat.add_le_add_left (maxPageLen_take_le pages _) _)
    | some m =>
      exact (extractLoop_length_le _ "" h0).trans
        (Nat.add_le_add_left (maxPageLen_take_le pages _) _)

theorem extractLoop_replicate_empty (n : Nat) :
    extractLoop (List.replicate n (.ok "")) "" = "" := by
  induction n with
  | zero => rfl
  | succ m ih =>
    have he : ("" ++ "" : String) = "" := rfl
    simp only [List.replicate_succ, extractLoop, he]
    rw [if_neg (by decide)]
    exact ih

/-- C2 counterexample: a document whose single page has 500001 characters of
text is returned whole, so the extracted string is longer than 500000
characters, refuting the claimed length bound. -/
theorem extract_exceeds_threshold :
    500000 < (extract_text_from_pdf (.ok [.ok bigPage]) none).length := by
  have h1 : extract_text_from_pdf (.ok [.ok bigPage]) none = extractLoop [.ok bigPage] "" := rfl
  rw [h1, extractLoop_singleton, String.length_append, bigPage_length]
  have h0 : ("" : String).length = 0 := rfl
  omega

/-- C2 (amended): once the accumulated text exceeds 500000 characters the
scan stops (appending further pages leaves the result unchanged), and the
returned text exceeds 500000 characters by at most the length of a single
page (the page whose append crossed the threshold is kept whole). -/
theorem extract_threshold_behavior (p1 p2 : List Page)
    (h : 500000 < (extractLoop p1 "").length) :
    extractLoop (p1 ++ p2) "" = extractLoop p1 ""
    ∧ ∀ (doc : PDFDoc) (mp : Option Nat),
        (extract_text_from_pdf doc mp).length ≤ 500000 + docMaxPageLen doc :=
  ⟨extractLoop_stop p1 p2 "" (by decide) h, extract_length_le⟩

theorem extract_threshold_behavior_witness :
    500000 < (extractLoop [Except.ok bigPage] "").length
    ∧ (extractLoop ([Except.ok bigPage] ++ [Except.ok "b"]) "" = extractLoop [Except.ok bigPage] ""
      ∧ ∀ (doc : PDFDoc) (mp : Option Nat),
          (extract_text_from_pdf doc mp).length ≤ 500000 + docMaxPageLen doc) := by
  have hbig : 500000 < (extractLoop [Except.ok bigPage] "").length := by
    rw [extractLoop_singleton, String.length_append, bigPage_length]
    have h0 : ("" : String).length = 0 := rfl
    omega
  exact ⟨hbig, extract_threshold_behavior _ _ hbig⟩

/-- C8: the extractor is total on its inputs: a whole-document failure
yields `""`, a zero-page document yields `""`, a per-page failure is skipped
without aborting the scan, and a document with no extractable text (every
page yields `""`) yields `""`. -/
theorem extractor_error_handling :
    (∀ mp : Option Nat, extract_text_from_pdf (.error ()) mp = "")
    ∧ (∀ mp : Option Nat, extract_text_from_pdf (.ok []) mp = "")
    ∧ (∀ (rest : List Page) (t : String),
        extractLoop (.error () :: rest) t = extractLoop rest t)
    ∧ (∀ (n : Nat) (mp : Option Nat),
        extract_text_from_pdf (.ok (List.replicate n (.ok ""))) mp = "") := by
  refine ⟨fun mp => rfl, fun mp => ?_, fun rest t => rfl, fun n mp => ?_⟩
  · cases mp <;> simp [extract_text_from_pdf, List.take_nil, extractLoop]
  · cases mp <;>
      simp [extract_text_from_pdf, List.length_replicate, List.take_replicate,
        extractLoop_replicate_empty]

/-- C1: evaluation of the parser on a well-formed reply (one MCQ block, then
the Short Answer header, then a short-answer question).  The header switch
does not flush the in-progress MCQ record; the record is flushed later, into
the Short Answer collection, so the MCQ collection comes out empty. -/
theorem header_switch_misfiles_record :
    parseSections ("MULTIPLE CHOICE QUESTIONS:\nQ1. What is X?\nA) a\nB) b\nC) c\nD) d\nAnswer: A\nSHORT ANSWER QUESTIONS:\nQ1. Explain Y.") =
      .ok ⟨[], [⟨"Q1. What is X?", some ["A) a", "B) b", "C) c", "D) d"], some "Answer: A"⟩,
                ⟨"Q1. Explain Y.", none, none⟩], []⟩ := by
  rfl

/-- C5: inside the MCQ section, a block of one question-start line, four
option-prefixed lines and one ANSWER/CORRECT line parses to a single MCQ
record carrying exactly four options and a non-empty answer. -/
theorem mcq_block_record
    (hdr lq lo1 lo2 lo3 lo4 la : String)
    (hh : headerOf (pyStrip hdr) = some Sec.mcq) (hhne : pyStrip hdr ≠ "")
    (hqh : headerOf (pyStrip lq) = none) (hq : isQStart (pyStrip lq) = true)
    (hqne : pyStrip lq ≠ "")
    (ho1h : headerOf (pyStrip lo1) = none) (ho1q : isQStart (pyStrip lo1) = false)
    (ho1 : isOptStart (pyStrip lo1) = true) (ho1ne : pyStrip lo1 ≠ "")
    (ho2h : headerOf (pyStrip lo2) = none) (ho2q : isQStart (pyStrip lo2) = false)
    (ho2 : isOptStart (pyStrip lo2) = true) (ho2ne : pyStrip lo2 ≠ "")
    (ho3h : headerOf (pyStrip lo3) = none) (ho3q : isQStart (pyStrip lo3) = false)
    (ho3 : isOptStart (pyStrip lo3) = true) (ho3ne : pyStrip lo3 ≠ "")
    (ho4h : headerOf (pyStrip lo4) = none) (ho4q : isQStart (pyStrip lo4) = false)
    (ho4 : isOptStart (pyStrip lo4) = true) (ho4ne : pyStrip lo4 ≠ "")
    (hah : headerOf (pyStrip la) = none) (haq : isQStart (pyStrip la) = false)
    (hao : isOptStart (pyStrip la) = false)
    (ha : isAnswerLine (strUpper (pyStrip la)) = true) (hane : pyStrip la ≠ "") :
    ∃ r : QRec,
      parseLinesToSections [hdr, lq, lo1, lo2, lo3, lo4, la] = .ok ⟨[r], [], []⟩
      ∧ (r.options.getD []).length = 4
      ∧ r.answer.getD "" ≠ "" := by
  refine ⟨⟨pyStrip lq, some [pyStrip lo1, pyStrip lo2, pyStrip lo3, pyStrip lo4],
    some (pyStrip la)⟩, ?_, rfl, by simpa using hane⟩
  simp [parseLinesToSections, parseLoop, parseLine, finalFlush, addTo, PState.init,
    Sections.empty, Except.map, hh, hhne, hqh, hq, hqne, ho1h, ho1q, ho1, ho1ne, ho2h,
    ho2q, ho2, ho2ne, ho3h, ho3q, ho3, ho3ne, ho4h, ho4q, ho4, ho4ne, hah, haq, hao,
    ha, hane]

theorem mcq_block_record_witness :
    ∃ r : QRec,
      parseLinesToSections
        ["MULTIPLE CHOICE QUESTIONS:", "Q1. What is 2+2?", "A) 1", "B) 2", "C) 3",
         "D) 4", "Answer: D"] = .ok ⟨[r], [], []⟩
      ∧ (r.options.getD []).length = 4
      ∧ r.answer.getD "" ≠ "" :=
  mcq_block_record "MULTIPLE CHOICE QUESTIONS:" "Q1. What is 2+2?" "A) 1" "B) 2" "C) 3"
    "D) 4" "Answer: D" (by decide) (by decide) (by decide) (by decide) (by decide)
    (by decide) (by decide) (by decide) (by decide) (by decide) (by decide) (by decide)
    (by decide) (by decide) (by decide) (by decide) (by decide) (by decide) (by decide)
    (by decide) (by decide) (by decide) (by decide) (by decide) (by decide) (by decide)

theorem parseLoop_no_header (lines : List String)
    (h : ∀ l ∈ lines, headerOf (pyStrip l) = none) :
    parseLoop lines ⟨none, none, Sections.empty⟩ = .ok ⟨none, none, Sections.empty⟩ := by
  induction lines with
  | nil => rfl
  | cons l ls ih =>
    have hl := h l (List.mem_cons_self l ls)
    have hstep : parseLine ⟨none, none, Sections.empty⟩ l = .ok ⟨none, none, Sections.empty⟩ := by
      by_cases he : pyStrip l = ""
      · simp [parseLine, he]
      · simp [parseLine, he, hl]
    simp only [parseLoop, hstep]
    exact ih (fun x hx => h x (List.mem_cons_of_mem _ hx))

/-- C6: a reply none of whose lines is recognized as a section header parses
to three empty collections, and the exporter still produces the three sheets
with their fixed headers and zero data rows. -/
theorem no_header_three_empty (txt : String)
    (h : ∀ l ∈ splitLines txt, headerOf (pyStrip l) = none) :
    parseSections txt = .ok Sections.empty
    ∧ makeWorkbook Sections.empty =
        ⟨⟨"MCQs", ["Question", "Options", "Answer"], []⟩,
         ⟨"Short Answer", ["Question"], []⟩,
         ⟨"Long Answer", ["Question"], []⟩⟩ := by
  constructor
  · show (parseLoop (splitLines txt) PState.init).map finalFlush = .ok Sections.empty
    rw [show PState.init = (⟨none, none, Sections.empty⟩ : PState) from rfl,
      parseLoop_no_header _ h]
    rfl
  · rfl

theorem no_header_three_empty_witness :
    parseSections "hello\nQ1. stray question\nworld" = .ok Sections.empty
    ∧ makeWorkbook Sections.empty =
        ⟨⟨"MCQs", ["Question", "Options", "Answer"], []⟩,
         ⟨"Short Answer", ["Question"], []⟩,
         ⟨"Long Answer", ["Question"], []⟩⟩ :=
  no_header_three_empty "hello\nQ1. stray question\nworld" (by decide)

/-- C7: the parser is a pure function of the reply text: two parses of the
same input yield the same result. -/
theorem parse_deterministic (txt : String) (r1 r2 : Except String Sections)
    (h1 : parseSections txt = r1) (h2 : parseSections txt = r2) : r1 = r2 := by
  rw [← h1, ← h2]

theorem parse_deterministic_witness :
    parseSections "MCQ\nQ1. x" = parseSections "MCQ\nQ1. x" :=
  parse_deterministic "MCQ\nQ1. x" (parseSections "MCQ\nQ1. x")
    (parseSections "MCQ\nQ1. x") rfl rfl

theorem quota_ne_generic (e : String) :
    quotaMsg ≠ "Failed to generate questions: " ++ e := by
  intro h
  have h2 := congrArg String.data h
  rw [String.data_append] at h2
  have hq : quotaMsg.data =
      'A' :: ("PI quota exceeded. Please add credits to your OpenAI account and try again.").data := rfl
  have hf : ("Failed to generate questions: ").data =
      'F' :: ("ailed to generate questions: ").data := rfl
  rw [hq, hf, List.cons_append] at h2
  simp only [List.cons.injEq] at h2
  exact absurd h2.1 (by decide)

/-- C3: when the generation call fails, an error text containing "429" or
(case-insensitively) "quota" produces the dedicated quota message, any other
error text produces the generic failure message, and the two messages are
distinct. -/
theorem generation_failure_messages (env : WorkerEnv)
    (hs : env.serviceAvailable = true)
    (hr : pyStrip (extract_text_from_pdf env.refDoc (some 1000)) ≠ "")
    (hy : pyStrip (extract_text_from_pdf env.sylDoc (some 50)) ≠ "")
    (hf : env.api.success = false) :
    ((containsSubstr "429" env.api.error
        || containsSubstr "quota" (strLower env.api.error)) = true →
      (process_files env).trace =
        [⟨"processing", none, false⟩, ⟨"generating_questions", none, false⟩,
         ⟨"error", some quotaMsg, false⟩])
    ∧ ((containsSubstr "429" env.api.error
        || containsSubstr "quota" (strLower env.api.error)) = false →
      (process_files env).trace =
        [⟨"processing", none, false⟩, ⟨"generating_questions", none, false⟩,
         ⟨"error", some ("Failed to generate questions: " ++ env.api.error), false⟩])
    ∧ ∀ e : String, quotaMsg ≠ "Failed to generate questions: " ++ e := by
  refine ⟨fun hcase => ?_, fun hcase => ?_, quota_ne_generic⟩
  · simp [process_files, hs, hr, hy, hf, hcase]
  · simp [process_files, hs, hr, hy, hf, hcase]

theorem generation_failure_messages_witness :
    (process_files ⟨true, .ok [.ok "r"], .ok [.ok "s"], ⟨false, "", "HTTP 429"⟩, true⟩).trace =
      [⟨"processing", none, false⟩, ⟨"generating_questions", none, false⟩,
       ⟨"error", some quotaMsg, false⟩] :=
  (generation_failure_messages ⟨true, .ok [.ok "r"], .ok [.ok "s"], ⟨false, "", "HTTP 429"⟩, true⟩
    rfl (by decide) (by decide) rfl).1 (by decide)

/-- C4: when the reference text strips to the empty string, the job goes to
`error` with the reference-specific message (distinct from the syllabus
message) and the generation call is never made. -/
theorem ref_extract_failure (env : WorkerEnv)
    (hs : env.serviceAvailable = true)
    (hr : pyStrip (extract_text_from_pdf env.refDoc (some 1000)) = "") :
    process_files env =
      ⟨[⟨"processing", none, false⟩, ⟨"error", some refExtractFailMsg, false⟩],
        true, false⟩
    ∧ refExtractFailMsg ≠ sylExtractFailMsg := by
  refine ⟨?_, by decide⟩
  simp [process_files, hs, hr]

theorem ref_extract_failure_witness :
    process_files ⟨true, .ok [.ok "  \t "], .ok [.ok "s"], ⟨true, "", ""⟩, true⟩ =
      ⟨[⟨"processing", none, false⟩, ⟨"error", some refExtractFailMsg, false⟩],
        true, false⟩
    ∧ refExtractFailMsg ≠ sylExtractFailMsg :=
  ref_extract_failure ⟨true, .ok [.ok "  \t "], .ok [.ok "s"], ⟨true, "", ""⟩, true⟩
    rfl (by decide)

/-- C10: with the service handle unavailable the worker reports the fixed
configuration message and touches neither the extractor nor the generator. -/
theorem service_unavailable_guard (env : WorkerEnv)
    (hs : env.serviceAvailable = false) :
    process_files env =
      ⟨[⟨"processing", none, false⟩,
        ⟨"error", some serviceUnavailableMsg, false⟩], false, false⟩ := by
  simp [process_files, hs]

theorem service_unavailable_guard_witness :
    process_files ⟨false, .ok [.ok "r"], .ok [.ok "s"], ⟨true, "reply", ""⟩, true⟩ =
      ⟨[⟨"processing", none, false⟩,
        ⟨"error", some serviceUnavailableMsg, false⟩], false, false⟩ :=
  service_unavailable_guard ⟨false, .ok [.ok "r"], .ok [.ok "s"], ⟨true, "reply", ""⟩, true⟩ rfl

/-- C9: starting from `queued`, every worker run moves the job status
strictly forward in the order queued → processing → generating_questions →
completed/error, and a terminal status (`completed`/`error`) occurs only as
the last state of the run. -/
theorem job_status_forward (env : WorkerEnv) :
    List.Chain' (fun a b => statusRank a < statusRank b)
      ("queued" :: (process_files env).trace.map JobRec.status)
    ∧ ∀ s ∈ ("queued" :: (process_files env).trace.map JobRec.status).dropLast,
        s ≠ "completed" ∧ s ≠ "error" := by
  have hqpe : List.Chain' (fun a b => statusRank a < statusRank b)
      ["queued", "processing", "error"] :=
    List.chain'_cons.mpr ⟨by decide, List.chain'_cons.mpr ⟨by decide,
      List.chain'_singleton _⟩⟩
  have hqpgc : List.Chain' (fun a b => statusRank a < statusRank b)
      ["queued", "processing", "generating_questions", "completed"] :=
    List.chain'_cons.mpr ⟨by decide, List.chain'_cons.mpr ⟨by decide,
      List.chain'_cons.mpr ⟨by decide, List.chain'_singleton _⟩⟩⟩
  have hqpge : List.Chain' (fun a b => statusRank a < statusRank b)
      ["queued", "processing", "generating_questions", "error"] :=
    List.chain'_cons.mpr ⟨by decide, List.chain'_cons.mpr ⟨by decide,
      List.chain'_cons.mpr ⟨by decide, List.chain'_singleton _⟩⟩⟩
  simp only [process_files]
  split_ifs
  · exact ⟨hqpe, by decide⟩
  · exact ⟨hqpe, by decide⟩
  · exact ⟨hqpe, by decide⟩
  · exact ⟨hqpge, by decide⟩
  · refine ⟨hqpge, ?_⟩
    show ∀ s ∈ (["queued", "processing", "generating_questions"] : List String),
      s ≠ "completed" ∧ s ≠ "error"
    decide
  · split
    · refine ⟨hqpge, ?_⟩
      show ∀ s ∈ (["queued", "processing", "generating_questions"] : List String),
        s ≠ "completed" ∧ s ≠ "error"
      decide
    · exact ⟨hqpgc, by decide⟩
    · exact ⟨hqpge, by decide⟩
